import Mathlib

/-!
Shallow embedding of `datacube/testutils/io.py`: test-support helpers for
reading and writing geospatial raster imagery.  Pixel values are modelled
as integers, the raster backend (rasterio) as a pure in-memory store of
raster files keyed by path, and the backend reprojection as a function
that overwrites only the destination pixels covered by the reprojected
source footprint.
-/

namespace Dcube

/-- Pixel (sample) values of a raster, modelled as integers. -/
abbrev Val := Int

/-- Numpy dtypes that matter to the module; used only as tags. -/
inductive Dtype
  | uint8
  | int16
  | int32
  | float32
  | float64
deriving DecidableEq

/-- An affine transform `Affine(a, b, c, d, e, f)`: pixel-to-world map
`x = a*col + b*row + c`, `y = d*col + e*row + f`. -/
structure Affine where
  a : Rat
  b : Rat
  c : Rat
  d : Rat
  e : Rat
  f : Rat
deriving DecidableEq

/-- A backend (rasterio) CRS object: `is_epsg_code`/`to_epsg` are modelled
by the `epsg` field, `wkt` is its well-known-text form. -/
structure RioCRS where
  epsg : Option Nat
  wkt : String
deriving DecidableEq

/-- A datacube CRS (`datacube.utils.geometry.CRS`), identified by the
string it was constructed from. -/
structure CRS where
  spec : String
deriving DecidableEq

/-- `datacube.utils.geometry.GeoBox` — constructed as
`GeoBox(w, h, transform, crs)`; `shape` is `(height, width)`. -/
structure GeoBox where
  width : Nat
  height : Nat
  transform : Affine
  crs : CRS
deriving DecidableEq

/-- `GeoBox.shape = (height, width)`. -/
def GeoBox.shape (g : GeoBox) : Nat × Nat := (g.height, g.width)

/-- The backend metadata mapping (`src.meta` / `dst.meta` of an opened
rasterio dataset).  `crs = none` / `transform = none` model the absence
of the corresponding key from the mapping. -/
structure RioMeta where
  height : Nat
  width : Nat
  count : Nat
  dtype : Dtype
  crs : Option RioCRS
  transform : Option Affine
  nodata : Option Val
deriving DecidableEq

/-- A metadata record as returned by the module's operations: the backend
mapping augmented with the derived `gbox`, the `src_gbox` (reprojecting
read only) and the source `path` keys. -/
structure OutMeta where
  meta : RioMeta
  gbox : Option GeoBox
  srcGbox : Option GeoBox
  path : String
deriving DecidableEq

/-- The payload of a numpy ndarray as passed to / returned by the module:
2-D (single band), 3-D (multi band), or any other dimensionality (whose
content the module never inspects; the constraint records that a real
ndarray of dimensionality 2 or 3 is always represented by the first two
constructors). -/
inductive PixData
  | two (rows : List (List Val))
  | three (bands : List (List (List Val)))
  | other (n : Nat) (hn : n ≠ 2 ∧ n ≠ 3)

/-- `ndarray.ndim`. -/
def PixData.ndim : PixData → Nat
  | .two _ => 2
  | .three _ => 3
  | .other n _ => n

/-- A numpy ndarray: a dtype together with its payload. -/
structure Ndarray where
  dtype : Dtype
  pix : PixData

/-- The creation profile handed to `rasterio.open(..., 'w', **rio_opts)`.
`tiled`/`blockxsize`/`blockysize`/`nodata` are `none` when the key is
absent from the dict. -/
structure RioOpts where
  width : Nat
  height : Nat
  count : Nat
  dtype : Dtype
  crs : Option RioCRS
  transform : Option Affine
  predictor : Nat
  compress : String
  tiled : Option Bool
  blockxsize : Option Nat
  blockysize : Option Nat
  nodata : Option Val
deriving DecidableEq

/-- `**extra_rio_opts` — the passthrough keyword options of `write_gtiff`,
restricted to the option keys the embedding tracks; a `some` field models
the key being present in the passed dict. -/
structure ExtraOpts where
  tiled : Option Bool
  blockxsize : Option Nat
  blockysize : Option Nat
  predictor : Option Nat
  compress : Option String
  nodata : Option Val
deriving DecidableEq

/-- `dict.update` on a single optional key: the new value wins when
present. -/
def upd {α : Type} (new old : Option α) : Option α :=
  match new with
  | some v => some v
  | none => old

/-- `rio_opts.update(extra_rio_opts)` — every key present in the extra
options overwrites the default built by `write_gtiff`. -/
def ExtraOpts.applyTo (e : ExtraOpts) (o : RioOpts) : RioOpts :=
  { o with
    tiled := upd e.tiled o.tiled,
    blockxsize := upd e.blockxsize o.blockxsize,
    blockysize := upd e.blockysize o.blockysize,
    predictor := match e.predictor with | some p => p | none => o.predictor,
    compress := match e.compress with | some c => c | none => o.compress,
    nodata := upd e.nodata o.nodata }

/-- A raster file on disk: its creation profile together with its stored
bands (each band a `height × width` list of rows). -/
structure RasterFile where
  opts : RioOpts
  bands : List (List (List Val))
deriving DecidableEq

def RasterFile.height (f : RasterFile) : Nat := f.opts.height

def RasterFile.width (f : RasterFile) : Nat := f.opts.width

def RasterFile.dtype (f : RasterFile) : Dtype := f.opts.dtype

def RasterFile.nodata (f : RasterFile) : Option Val := f.opts.nodata

/-- `src.count` — the number of bands actually stored in the file. -/
def RasterFile.count (f : RasterFile) : Nat := f.bands.length

/-- `src.meta` of an opened rasterio dataset. -/
def srcMeta (f : RasterFile) : RioMeta :=
  { height := f.opts.height,
    width := f.opts.width,
    count := f.bands.length,
    dtype := f.opts.dtype,
    crs := f.opts.crs,
    transform := f.opts.transform,
    nodata := f.opts.nodata }

/-- The filesystem: an association list from path to raster file content. -/
abbrev FS := List (String × RasterFile)

/-- `Path.unlink`. -/
def FS.unlink (fs : FS) (fname : String) : FS :=
  fs.filter (fun e => !(e.1 == fname))

/-- The errors `write_gtiff` raises itself: `ValueError('Need 2d or 3d
ndarray on input')` and `IOError('File exists')`. -/
inductive WriteErr
  | valueError
  | ioFileExists
deriving DecidableEq

/-- Errors of the read path (propagated unchanged from the backend). -/
inductive ReadErr
  | fileNotFound
deriving DecidableEq

/-- `dc_crs_from_rio`: normalize a backend CRS to `epsg:<code>` when it
has a registered EPSG code, and to its WKT form otherwise. -/
def dc_crs_from_rio (crs : RioCRS) : CRS :=
  match crs.epsg with
  | some code => { spec := "epsg:" ++ toString code }
  | none => { spec := crs.wkt }

/-- `rio_geobox`: construct a geobox from `src.meta` of an opened rasterio
dataset; `None` when the `crs` or `transform` key is missing. -/
def rio_geobox (meta : RioMeta) : Option GeoBox :=
  match meta.crs, meta.transform with
  | some c, some t =>
      some { width := meta.width, height := meta.height,
             transform := t, crs := dc_crs_from_rio c }
  | _, _ => none

/-- The claim-level consistency relation: a geobox is consistent with a
backend metadata record when it is exactly the one derived from that
record's height, width, transform and crs. -/
def gboxConsistent (m : RioMeta) (g : GeoBox) : Prop :=
  rio_geobox m = some g

instance (m : RioMeta) (g : GeoBox) : Decidable (gboxConsistent m g) := by
  unfold gboxConsistent
  infer_instance

/-- `np.full((h, w), v)`. -/
def mkFull (h w : Nat) (v : Val) : List (List Val) :=
  List.replicate h (List.replicate w v)

/-- One row of the backend reprojection: pixel at column `c` is
overwritten by the covering value `f c` when the source footprint covers
it, and left untouched otherwise. -/
def warpRow (f : Nat → Option Val) : Nat → List Val → List Val
  | _, [] => []
  | c, v :: vs => ((f c).getD v) :: warpRow f (c + 1) vs

/-- All rows of the backend reprojection, row index threaded through. -/
def warpImage (cov : Nat → Nat → Option Val) : Nat → List (List Val) → List (List Val)
  | _, [] => []
  | r, row :: rows => warpRow (cov r) 0 row :: warpImage cov (r + 1) rows

/-- Model of the backend reprojection (`rasterio.warp.reproject` /
`reproject_and_fuse`): given the reprojected source footprint
`cov` (`cov r c = some v` when destination pixel `(r, c)` is covered by
the source raster, carrying the resampled value `v`), overwrite exactly
the covered pixels of the destination array and leave every other pixel
untouched — the backend does not itself guarantee full-canvas coverage. -/
def applyReproject (cov : Nat → Nat → Option Val) (im : List (List Val)) :
    List (List Val) :=
  warpImage cov 0 im

/-- Pixel accessor `im[r, c]` (0 outside the array). -/
def pixAt (im : List (List Val)) (r c : Nat) : Val :=
  (im.getD r []).getD c 0

/-- The `rio_opts` dict built by `write_gtiff`: geometric defaults, then
the `tiled`/`blockxsize`/`blockysize` update when a blocksize was
requested, then the `nodata` update, then the passthrough update with
`extra_rio_opts`. -/
def gtiffOpts (dtype : Dtype) (nbands h w : Nat) (crs : RioCRS)
    (resolution offset : Rat × Rat) (nodata : Option Val)
    (blocksize : Option Nat) (extra : ExtraOpts) : RioOpts :=
  let A : Affine :=
    { a := resolution.1, b := 0, c := offset.1,
      d := 0, e := resolution.2, f := offset.2 }
  let opts0 : RioOpts :=
    { width := w, height := h, count := nbands, dtype := dtype,
      crs := some crs, transform := some A, predictor := 2,
      compress := "DEFLATE", tiled := none,
      blockxsize := none, blockysize := none, nodata := none }
  let opts1 :=
    match blocksize with
    | none => opts0
    | some b =>
        { opts0 with tiled := some true,
                     blockxsize := some (min b w),
                     blockysize := some (min b h) }
  let opts2 :=
    match nodata with
    | none => opts1
    | some nd => { opts1 with nodata := some nd }
  ExtraOpts.applyTo extra opts2

/-- The tail of `write_gtiff` after validation: open the target for
writing with the assembled options, write the bands, and return the
backend metadata augmented with the derived geobox and the path. -/
def writeGtiffCreate (fs : FS) (fname : String) (dtype : Dtype)
    (bands : List (List (List Val))) (h w : Nat) (crs : RioCRS)
    (resolution offset : Rat × Rat) (nodata : Option Val)
    (blocksize : Option Nat) (extra : ExtraOpts) :
    Except WriteErr OutMeta × FS :=
  let file : RasterFile :=
    { opts := gtiffOpts dtype bands.length h w crs resolution offset
        nodata blocksize extra,
      bands := bands }
  let m := srcMeta file
  (.ok { meta := m, gbox := rio_geobox m, srcGbox := none, path := fname },
   (fname, file) :: fs)

/-- The existence check of `write_gtiff`: an existing target is unlinked
when `overwrite` is set and reported as `IOError('File exists')`
otherwise. -/
def writeGtiffChecked (fs : FS) (fname : String) (dtype : Dtype)
    (bands : List (List (List Val))) (h w : Nat) (crs : RioCRS)
    (resolution offset : Rat × Rat) (nodata : Option Val)
    (overwrite : Bool) (blocksize : Option Nat) (extra : ExtraOpts) :
    Except WriteErr OutMeta × FS :=
  if (fs.lookup fname).isSome then
    if overwrite then
      writeGtiffCreate (FS.unlink fs fname) fname dtype bands h w crs
        resolution offset nodata blocksize extra
    else (.error .ioFileExists, fs)
  else
    writeGtiffCreate fs fname dtype bands h w crs
      resolution offset nodata blocksize extra

/-- `write_gtiff(fname, pix, crs, resolution, offset, nodata, overwrite,
blocksize, **extra_rio_opts)`: validate the dimensionality of `pix`
(before anything else), then run the existence check and the write.  The
result pairs the raised error or returned metadata with the filesystem
after the call. -/
def write_gtiff (fs : FS) (fname : String) (pix : Ndarray) (crs : RioCRS)
    (resolution offset : Rat × Rat) (nodata : Option Val)
    (overwrite : Bool) (blocksize : Option Nat) (extra : ExtraOpts) :
    Except WriteErr OutMeta × FS :=
  match pix.pix with
  | .two rows =>
      writeGtiffChecked fs fname pix.dtype [rows]
        rows.length (rows.headD []).length crs resolution offset nodata
        overwrite blocksize extra
  | .three bands =>
      writeGtiffChecked fs fname pix.dtype bands
        (bands.headD []).length ((bands.headD []).headD []).length crs
        resolution offset nodata overwrite blocksize extra
  | .other _ _ => (.error .valueError, fs)

/-- The output of `rio_slurp_reproject`: the destination array (with its
dtype) and the metadata record. -/
structure ReprojOut where
  pix : List (List Val)
  dtype : Dtype
  meta : OutMeta

/-- `rio_slurp_reproject(fname, gbox, dtype, dst_nodata, **kw)`: resolve
the output dtype and nodata, pre-fill a destination array of shape
`gbox.shape` with the resolved nodata, run the backend reprojection
(modelled by `cov`, see `applyReproject`) into it, and return it with the
source metadata augmented by `src_gbox`, the destination `gbox` and the
path. -/
def rio_slurp_reproject (fs : FS) (fname : String) (gbox : GeoBox)
    (dtype : Option Dtype) (dst_nodata : Option Val)
    (cov : Nat → Nat → Option Val) : Except ReadErr ReprojOut :=
  match fs.lookup fname with
  | none => .error .fileNotFound
  | some src =>
      let dtype1 := match dtype with | none => src.dtype | some d => d
      let nd1 := match dst_nodata with | none => src.nodata | some v => some v
      let nd2 := match nd1 with | none => (0 : Val) | some v => v
      let pix := applyReproject cov (mkFull gbox.height gbox.width nd2)
      let m := srcMeta src
      .ok { pix := pix, dtype := dtype1,
            meta := { meta := m, gbox := some gbox,
                      srcGbox := rio_geobox m, path := fname } }

/-- Model of the backend band read with a requested output shape: nearest
neighbour decimation/replication of one source row to width `w` (`srcW`
is the source row width). -/
def resampleRow (w srcW : Nat) (row : List Val) : List Val :=
  (List.range w).map (fun c => row.getD (c * srcW / w) 0)

/-- Model of the backend band read with a requested output shape
`(h, w)`: nearest neighbour resampling of a whole band. -/
def resampleBand (h w : Nat) (band : List (List Val)) : List (List Val) :=
  (List.range h).map
    (fun r => resampleRow w (band.headD []).length
      (band.getD (r * band.length / h) []))

/-- Model of the backend single-band read `src.read(i, **kw)`: the stored
band `i` (1-based), resampled when an `out_shape` was forwarded. -/
def srcReadBand (f : RasterFile) (i : Nat) (out_shape : Option (Nat × Nat)) :
    List (List Val) :=
  let band := f.bands.getD (i - 1) []
  match out_shape with
  | none => band
  | some s => resampleBand s.1 s.2 band

/-- Model of the backend all-bands read `src.read(**kw)`: every stored
band stacked, each resampled when an `out_shape` was forwarded. -/
def srcReadAll (f : RasterFile) (out_shape : Option (Nat × Nat)) :
    List (List (List Val)) :=
  match out_shape with
  | none => f.bands
  | some s => f.bands.map (resampleBand s.1 s.2)

/-- `rio_slurp_read(fname, out_shape, **kw)`: read the single band as a
2-D array when the file has exactly one band, else all bands stacked as a
3-D array, forwarding `out_shape` to the backend read; return the data
with the metadata record. -/
def rio_slurp_read (fs : FS) (fname : String)
    (out_shape : Option (Nat × Nat)) :
    Except ReadErr (Ndarray × OutMeta) :=
  match fs.lookup fname with
  | none => .error .fileNotFound
  | some src =>
      let data : PixData :=
        if src.count = 1 then .two (srcReadBand src 1 out_shape)
        else .three (srcReadAll src out_shape)
      let m := srcMeta src
      .ok ({ dtype := src.dtype, pix := data },
           { meta := m, gbox := rio_geobox m, srcGbox := none, path := fname })

/-- Modelled from the spec: the nodata of the reader opened by
`RasterFileDataSource(path, band, nodata=fallback_nodata)`
(`datacube.storage.storage`, not under src/) — the file's declared nodata
when it has one, else the caller's `fallback_nodata` (spec section 9 and
the comment in `dc_read`: the `0` default applies only when
`fallback_nodata` was `None` and the file had none set). -/
def rdr_nodata (f : RasterFile) (fallback : Option Val) : Option Val :=
  match f.nodata with
  | some v => some v
  | none => fallback

/-- Modelled from the spec: `rdr_geobox` (`datacube.storage._read`, not
under src/) — the metadata normalizer applied to an open reader: a grid
descriptor from the reader's width, height, transform and CRS. -/
def rdr_geobox (f : RasterFile) : GeoBox :=
  { width := f.width, height := f.height,
    transform := (f.opts.transform).getD { a := 1, b := 0, c := 0, d := 0, e := 1, f := 0 },
    crs := match f.opts.crs with
           | some c => dc_crs_from_rio c
           | none => { spec := "" } }

/-- The 2-D image returned by `dc_read`, with its dtype. -/
structure DcImage where
  dtype : Dtype
  rows : List (List Val)

/-- `dc_read(path, band, gbox, resampling, dtype, dst_nodata,
fallback_nodata)`: open the file via `RasterFileDataSource`, default the
dtype, gbox and dst_nodata from the reader, fall back to `0`, pre-fill
the output with the resolved nodata and run `reproject_and_fuse`
(modelled by `cov`, see `applyReproject`) into it. -/
def dc_read (fs : FS) (path : String) (_band : Nat) (gbox : Option GeoBox)
    (_resampling : String) (dtype : Option Dtype) (dst_nodata : Option Val)
    (fallback_nodata : Option Val) (cov : Nat → Nat → Option Val) :
    Except ReadErr DcImage :=
  match fs.lookup path with
  | none => .error .fileNotFound
  | some f =>
      let dtype1 := match dtype with | none => f.dtype | some d => d
      let gb := match gbox with | none => rdr_geobox f | some g => g
      let nd1 := match dst_nodata with
                 | none => rdr_nodata f fallback_nodata
                 | some v => some v
      let nd2 := match nd1 with | none => (0 : Val) | some v => v
      let im := mkFull gb.height gb.width nd2
      .ok { dtype := dtype1, rows := applyReproject cov im }

/-! Helper lemmas about the reprojection model on a pre-filled canvas. -/

theorem warpRow_length (f : Nat → Option Val) (c0 : Nat) (row : List Val) :
    (warpRow f c0 row).length = row.length := by
  induction row generalizing c0 with
  | nil => rfl
  | cons v vs ih => simp [warpRow, ih]

theorem warpImage_length (cov : Nat → Nat → Option Val) (r0 : Nat)
    (rows : List (List Val)) :
    (warpImage cov r0 rows).length = rows.length := by
  induction rows generalizing r0 with
  | nil => rfl
  | cons row rows ih => simp [warpImage, ih]

theorem warpRow_replicate_getD_none (f : Nat → Option Val) (v : Val) :
    ∀ (w c0 c : Nat), c < w → f (c0 + c) = none →
      (warpRow f c0 (List.replicate w v)).getD c 0 = v := by
  intro w
  induction w with
  | zero => intro c0 c hc; omega
  | succ w ih =>
      intro c0 c hc hnone
      cases c with
      | zero =>
          simp only [List.replicate, warpRow, List.getD]
          simp only [Nat.add_zero] at hnone
          simp [hnone]
      | succ c =>
          simp only [List.replicate, warpRow]
          have hc' : c < w := by omega
          have hnone' : f ((c0 + 1) + c) = none := by
            have : (c0 + 1) + c = c0 + (c + 1) := by omega
            rw [this]; exact hnone
          simpa [List.getD] using ih (c0 + 1) c hc' hnone'

theorem warpImage_replicate_getD (cov : Nat → Nat → Option Val)
    (w : Nat) (v : Val) :
    ∀ (h r0 r : Nat), r < h →
      (warpImage cov r0 (List.replicate h (List.replicate w v))).getD r []
        = warpRow (cov (r0 + r)) 0 (List.replicate w v) := by
  intro h
  induction h with
  | zero => intro r0 r hr; omega
  | succ h ih =>
      intro r0 r hr
      cases r with
      | zero =>
          simp only [List.replicate, warpImage, List.getD]
          simp
      | succ r =>
          simp only [List.replicate, warpImage]
          have hr' : r < h := by omega
          have harg : (r0 + 1) + r = r0 + (r + 1) := by omega
          simpa [List.getD, harg] using ih (r0 + 1) r hr'

theorem pixAt_applyReproject_mkFull (cov : Nat → Nat → Option Val)
    (h w r c : Nat) (v : Val) (hr : r < h) (hc : c < w)
    (hnone : cov r c = none) :
    pixAt (applyReproject cov (mkFull h w v)) r c = v := by
  unfold pixAt applyReproject mkFull
  rw [warpImage_replicate_getD cov w v h 0 r hr]
  have hnone' : cov (0 + r) (0 + c) = none := by simpa using hnone
  simpa using warpRow_replicate_getD_none (cov (0 + r)) v w 0 c hc hnone'

theorem applyReproject_mkFull_length (cov : Nat → Nat → Option Val)
    (h w : Nat) (v : Val) :
    (applyReproject cov (mkFull h w v)).length = h := by
  unfold applyReproject mkFull
  simp [warpImage_length]

theorem warpImage_replicate_rowlen (cov : Nat → Nat → Option Val)
    (w : Nat) (v : Val) :
    ∀ (h r0 : Nat), ∀ row ∈ warpImage cov r0 (List.replicate h (List.replicate w v)),
      row.length = w := by
  intro h
  induction h with
  | zero => intro r0 row hrow; simp [warpImage] at hrow
  | succ h ih =>
      intro r0 row hrow
      simp only [List.replicate, warpImage, List.mem_cons] at hrow
      rcases hrow with hhead | htail
      · subst hhead; simp [warpRow_length]
      · exact ih (r0 + 1) row htail

theorem applyReproject_mkFull_rowlen (cov : Nat → Nat → Option Val)
    (h w : Nat) (v : Val) :
    ∀ row ∈ applyReproject cov (mkFull h w v), row.length = w := by
  unfold applyReproject mkFull
  exact warpImage_replicate_rowlen cov w v h 0

/-- `ndarray.ndim` of a whole array. -/
def Ndarray.ndim (a : Ndarray) : Nat := a.pix.ndim

theorem gtiffOpts_dtype (dtype : Dtype) (n h w : Nat) (crs : RioCRS)
    (res off : Rat × Rat) (nd : Option Val) (bs : Option Nat)
    (ex : ExtraOpts) :
    (gtiffOpts dtype n h w crs res off nd bs ex).dtype = dtype := by
  unfold gtiffOpts ExtraOpts.applyTo
  cases bs <;> cases nd <;> rfl

/-- C5: for every input array whose number of dimensions is neither 2 nor
3, `write_gtiff` raises `ValueError` immediately and the filesystem is
untouched (no I/O was performed). -/
theorem write_gtiff_bad_ndim_value_error (fs : FS) (fname : String)
    (pix : Ndarray) (crs : RioCRS) (resolution offset : Rat × Rat)
    (nodata : Option Val) (overwrite : Bool) (blocksize : Option Nat)
    (extra : ExtraOpts) (h2 : pix.ndim ≠ 2) (h3 : pix.ndim ≠ 3) :
    write_gtiff fs fname pix crs resolution offset nodata overwrite
      blocksize extra = (.error .valueError, fs) := by
  obtain ⟨dt, p⟩ := pix
  cases p with
  | two rows => exact absurd rfl h2
  | three bands => exact absurd rfl h3
  | other n hn => rfl

/-- C5 witness: a 1-D array is rejected with `ValueError` on an empty
filesystem. -/
theorem write_gtiff_bad_ndim_value_error_witness :
    write_gtiff [] "a.tif" ⟨Dtype.uint8, .other 1 (by decide)⟩
      ⟨some 3857, "WKT3857"⟩ (10, -10) (0, 0) none false none
      ⟨none, none, none, none, none, none⟩ = (.error .valueError, []) :=
  write_gtiff_bad_ndim_value_error [] "a.tif"
    ⟨Dtype.uint8, .other 1 (by decide)⟩ ⟨some 3857, "WKT3857"⟩ (10, -10)
    (0, 0) none false none ⟨none, none, none, none, none, none⟩
    (by decide) (by decide)

/-- C4: writing a 2-D or 3-D array to an existing path with
`overwrite = False` raises `IOError('File exists')` before any write: the
filesystem — in particular the existing file — is returned unchanged. -/
theorem write_gtiff_exists_error (fs : FS) (fname : String) (pix : Ndarray)
    (crs : RioCRS) (resolution offset : Rat × Rat) (nodata : Option Val)
    (blocksize : Option Nat) (extra : ExtraOpts)
    (hdim : pix.ndim = 2 ∨ pix.ndim = 3)
    (hexists : (fs.lookup fname).isSome = true) :
    write_gtiff fs fname pix crs resolution offset nodata false
      blocksize extra = (.error .ioFileExists, fs) := by
  obtain ⟨dt, p⟩ := pix
  cases p with
  | two rows => simp [write_gtiff, writeGtiffChecked, hexists]
  | three bands => simp [write_gtiff, writeGtiffChecked, hexists]
  | other n hn =>
      rcases hdim with h | h
      · exact absurd h hn.1
      · exact absurd h hn.2

/-- C4 witness: writing `[[1, 2], [3, 4]]` onto an occupied path without
`overwrite` raises the existence error and leaves the filesystem as it
was. -/
theorem write_gtiff_exists_error_witness :
    write_gtiff
      [("a.tif", ⟨⟨4, 3, 1, Dtype.uint8, some ⟨some 3857, "WKT3857"⟩,
        some ⟨10, 0, 0, 0, -10, 0⟩, 2, "DEFLATE", none, none, none, none⟩,
        [[[1, 1, 1, 1], [1, 1, 1, 1], [1, 1, 1, 1]]]⟩)]
      "a.tif" ⟨Dtype.uint8, .two [[1, 2], [3, 4]]⟩ ⟨some 3857, "WKT3857"⟩
      (10, -10) (0, 0) none false none ⟨none, none, none, none, none, none⟩
      = (.error .ioFileExists,
         [("a.tif", ⟨⟨4, 3, 1, Dtype.uint8, some ⟨some 3857, "WKT3857"⟩,
           some ⟨10, 0, 0, 0, -10, 0⟩, 2, "DEFLATE", none, none, none, none⟩,
           [[[1, 1, 1, 1], [1, 1, 1, 1], [1, 1, 1, 1]]]⟩)]) :=
  write_gtiff_exists_error _ "a.tif" ⟨Dtype.uint8, .two [[1, 2], [3, 4]]⟩
    ⟨some 3857, "WKT3857"⟩ (10, -10) (0, 0) none none
    ⟨none, none, none, none, none, none⟩ (Or.inl rfl) (by rfl)

/-- C10: the dimensionality check of `write_gtiff` runs before the
existence check — with a bad-dimensional array, an existing target and
`overwrite = True`, the call raises `ValueError` (not the existence
error) and the pre-existing file is not deleted. -/
theorem write_gtiff_ndim_checked_before_exists (fs : FS) (fname : String)
    (pix : Ndarray) (crs : RioCRS) (resolution offset : Rat × Rat)
    (nodata : Option Val) (blocksize : Option Nat) (extra : ExtraOpts)
    (f : RasterFile) (h2 : pix.ndim ≠ 2) (h3 : pix.ndim ≠ 3)
    (hf : fs.lookup fname = some f) :
    write_gtiff fs fname pix crs resolution offset nodata true
      blocksize extra = (.error .valueError, fs)
    ∧ ((write_gtiff fs fname pix crs resolution offset nodata true
          blocksize extra).2).lookup fname = some f := by
  obtain ⟨dt, p⟩ := pix
  cases p with
  | two rows => exact absurd rfl h2
  | three bands => exact absurd rfl h3
  | other n hn => exact ⟨rfl, hf⟩

/-- C10 witness: a 4-D array aimed at an occupied path with
`overwrite = True` still gives `ValueError` and the occupant survives. -/
theorem write_gtiff_ndim_checked_before_exists_witness :
    write_gtiff
      [("a.tif", ⟨⟨1, 1, 1, Dtype.uint8, none, none, 2, "DEFLATE",
        none, none, none, none⟩, [[[5]]]⟩)]
      "a.tif" ⟨Dtype.uint8, .other 4 (by decide)⟩ ⟨some 3857, "WKT3857"⟩
      (10, -10) (0, 0) none true none ⟨none, none, none, none, none, none⟩
      = (.error .valueError,
         [("a.tif", ⟨⟨1, 1, 1, Dtype.uint8, none, none, 2, "DEFLATE",
           none, none, none, none⟩, [[[5]]]⟩)])
    ∧ ((write_gtiff
      [("a.tif", ⟨⟨1, 1, 1, Dtype.uint8, none, none, 2, "DEFLATE",
        none, none, none, none⟩, [[[5]]]⟩)]
      "a.tif" ⟨Dtype.uint8, .other 4 (by decide)⟩ ⟨some 3857, "WKT3857"⟩
      (10, -10) (0, 0) none true none
      ⟨none, none, none, none, none, none⟩).2).lookup "a.tif"
      = some ⟨⟨1, 1, 1, Dtype.uint8, none, none, 2, "DEFLATE",
          none, none, none, none⟩, [[[5]]]⟩ :=
  write_gtiff_ndim_checked_before_exists _ "a.tif"
    ⟨Dtype.uint8, .other 4 (by decide)⟩ ⟨some 3857, "WKT3857"⟩ (10, -10)
    (0, 0) none none ⟨none, none, none, none, none, none⟩ _
    (by decide) (by decide) (by rfl)

/-- The file `write_gtiff` creates for a 2-D input (helper for stating
the roundtrip). -/
def writtenFile2d (dt : Dtype) (rows : List (List Val)) (crs : RioCRS)
    (resolution offset : Rat × Rat) (nodata : Option Val)
    (blocksize : Option Nat) (extra : ExtraOpts) : RasterFile :=
  ⟨gtiffOpts dt 1 rows.length (rows.headD []).length crs resolution offset
     nodata blocksize extra, [rows]⟩

/-- C1: a valid (rectangular) 2-D array written to a fresh path and read
back with `rio_slurp_read` comes back equal element-for-element with its
dtype preserved. -/
theorem write_gtiff_roundtrip (fs : FS) (fname : String)
    (rows : List (List Val)) (dt : Dtype) (crs : RioCRS)
    (resolution offset : Rat × Rat) (nodata : Option Val)
    (overwrite : Bool) (blocksize : Option Nat) (extra : ExtraOpts)
    (hfresh : fs.lookup fname = none)
    (_hrect : ∀ row ∈ rows, row.length = (rows.headD []).length) :
    (∃ m, (write_gtiff fs fname ⟨dt, .two rows⟩ crs resolution offset
        nodata overwrite blocksize extra).1 = .ok m)
    ∧ ∃ m2, rio_slurp_read
        (write_gtiff fs fname ⟨dt, .two rows⟩ crs resolution offset
          nodata overwrite blocksize extra).2 fname none
        = .ok (⟨dt, .two rows⟩, m2) := by
  have hsome : (fs.lookup fname).isSome = false := by
    rw [hfresh]; rfl
  have hw : write_gtiff fs fname ⟨dt, .two rows⟩ crs resolution offset
      nodata overwrite blocksize extra
      = (Except.ok
          { meta := srcMeta (writtenFile2d dt rows crs resolution offset
              nodata blocksize extra),
            gbox := rio_geobox (srcMeta (writtenFile2d dt rows crs
              resolution offset nodata blocksize extra)),
            srcGbox := none, path := fname },
         (fname, writtenFile2d dt rows crs resolution offset nodata
           blocksize extra) :: fs) := by
    simp [write_gtiff, writeGtiffChecked, writeGtiffCreate, writtenFile2d,
      hsome]
  refine ⟨⟨_, by rw [hw]⟩, ?_⟩
  rw [hw]
  simp only [rio_slurp_read, List.lookup, beq_self_eq_true, if_pos]
  have hcount : (writtenFile2d dt rows crs resolution offset nodata
      blocksize extra).count = 1 := rfl
  rw [hcount]
  simp only [if_pos rfl]
  have hdt : (writtenFile2d dt rows crs resolution offset nodata
      blocksize extra).dtype = dt := by
    rw [RasterFile.dtype, writtenFile2d, gtiffOpts_dtype]
  rw [hdt]
  exact ⟨_, rfl⟩

/-- C1 witness: writing `[[1, 2], [3, 4]]` (uint8) to a fresh path and
slurping it back succeeds and returns the same array and dtype. -/
theorem write_gtiff_roundtrip_witness :
    (∃ m, (write_gtiff [] "a.tif" ⟨Dtype.uint8, .two [[1, 2], [3, 4]]⟩
        ⟨some 3857, "WKT3857"⟩ (10, -10) (0, 0) none false none
        ⟨none, none, none, none, none, none⟩).1 = .ok m)
    ∧ ∃ m2, rio_slurp_read
        (write_gtiff [] "a.tif" ⟨Dtype.uint8, .two [[1, 2], [3, 4]]⟩
          ⟨some 3857, "WKT3857"⟩ (10, -10) (0, 0) none false none
          ⟨none, none, none, none, none, none⟩).2 "a.tif" none
        = .ok (⟨Dtype.uint8, .two [[1, 2], [3, 4]]⟩, m2) :=
  write_gtiff_roundtrip [] "a.tif" [[1, 2], [3, 4]] Dtype.uint8
    ⟨some 3857, "WKT3857"⟩ (10, -10) (0, 0) none false none
    ⟨none, none, none, none, none, none⟩ (by rfl) (by decide)

theorem gtiffOpts_blocksize (dtype : Dtype) (n h w : Nat) (crs : RioCRS)
    (res off : Rat × Rat) (nd : Option Val) (b : Nat) (ex : ExtraOpts)
    (het : ex.tiled = none) (hex : ex.blockxsize = none)
    (hey : ex.blockysize = none) :
    (gtiffOpts dtype n h w crs res off nd (some b) ex).tiled = some true
    ∧ (gtiffOpts dtype n h w crs res off nd (some b) ex).blockxsize
        = some (min b w)
    ∧ (gtiffOpts dtype n h w crs res off nd (some b) ex).blockysize
        = some (min b h) := by
  unfold gtiffOpts ExtraOpts.applyTo upd
  cases nd <;> simp [het, hex, hey]

theorem writeGtiffChecked_fresh_fs (fs : FS) (fname : String) (dt : Dtype)
    (bands : List (List (List Val))) (h w : Nat) (crs : RioCRS)
    (resolution offset : Rat × Rat) (nodata : Option Val)
    (overwrite : Bool) (blocksize : Option Nat) (extra : ExtraOpts)
    (hsome : (fs.lookup fname).isSome = false) :
    (writeGtiffChecked fs fname dt bands h w crs resolution offset nodata
        overwrite blocksize extra).2
      = (fname, ⟨gtiffOpts dt bands.length h w crs resolution offset
          nodata blocksize extra, bands⟩) :: fs := by
  simp [writeGtiffChecked, writeGtiffCreate, hsome]

/-- C8 (amended): with a non-`None` blocksize, and as long as
`extra_rio_opts` does not itself carry `tiled`/`blockxsize`/`blockysize`
keys (those are applied after and override), the written file is tiled
and its tile size on each axis is the requested blocksize clamped to
that axis's image extent — for 2-D and for 3-D inputs. -/
theorem write_gtiff_blocksize_clamped (fs : FS) (fname : String)
    (dt : Dtype) (rows : List (List Val)) (bands : List (List (List Val)))
    (crs : RioCRS) (resolution offset : Rat × Rat) (nodata : Option Val)
    (b : Nat) (extra : ExtraOpts) (het : extra.tiled = none)
    (hex : extra.blockxsize = none) (hey : extra.blockysize = none)
    (hfresh : fs.lookup fname = none) :
    (∃ f, ((write_gtiff fs fname ⟨dt, .two rows⟩ crs resolution offset
          nodata false (some b) extra).2).lookup fname = some f
        ∧ f.opts.tiled = some true
        ∧ f.opts.blockxsize = some (min b (rows.headD []).length)
        ∧ f.opts.blockysize = some (min b rows.length))
    ∧ (∃ f, ((write_gtiff fs fname ⟨dt, .three bands⟩ crs resolution
          offset nodata false (some b) extra).2).lookup fname = some f
        ∧ f.opts.tiled = some true
        ∧ f.opts.blockxsize
            = some (min b ((bands.headD []).headD []).length)
        ∧ f.opts.blockysize = some (min b (bands.headD []).length)) := by
  have hsome : (fs.lookup fname).isSome = false := by rw [hfresh]; rfl
  constructor
  · have h2 : (write_gtiff fs fname ⟨dt, .two rows⟩ crs resolution offset
        nodata false (some b) extra).2
        = (fname, ⟨gtiffOpts dt 1 rows.length (rows.headD []).length crs
            resolution offset nodata (some b) extra, [rows]⟩) :: fs :=
      writeGtiffChecked_fresh_fs fs fname dt [rows] rows.length
        (rows.headD []).length crs resolution offset nodata false
        (some b) extra hsome
    refine ⟨⟨gtiffOpts dt 1 rows.length (rows.headD []).length crs
      resolution offset nodata (some b) extra, [rows]⟩, ?_, ?_, ?_, ?_⟩
    · rw [h2]; simp [List.lookup]
    · exact (gtiffOpts_blocksize dt 1 rows.length (rows.headD []).length
        crs resolution offset nodata b extra het hex hey).1
    · exact (gtiffOpts_blocksize dt 1 rows.length (rows.headD []).length
        crs resolution offset nodata b extra het hex hey).2.1
    · exact (gtiffOpts_blocksize dt 1 rows.length (rows.headD []).length
        crs resolution offset nodata b extra het hex hey).2.2
  · have h3 : (write_gtiff fs fname ⟨dt, .three bands⟩ crs resolution
        offset nodata false (some b) extra).2
        = (fname, ⟨gtiffOpts dt bands.length (bands.headD []).length
            ((bands.headD []).headD []).length crs resolution offset
            nodata (some b) extra, bands⟩) :: fs :=
      writeGtiffChecked_fresh_fs fs fname dt bands
        (bands.headD []).length ((bands.headD []).headD []).length crs
        resolution offset nodata false (some b) extra hsome
    refine ⟨⟨gtiffOpts dt bands.length (bands.headD []).length
      ((bands.headD []).headD []).length crs resolution offset nodata
      (some b) extra, bands⟩, ?_, ?_, ?_, ?_⟩
    · rw [h3]; simp [List.lookup]
    · exact (gtiffOpts_blocksize dt bands.length (bands.headD []).length
        ((bands.headD []).headD []).length crs resolution offset nodata b
        extra het hex hey).1
    · exact (gtiffOpts_blocksize dt bands.length (bands.headD []).length
        ((bands.headD []).headD []).length crs resolution offset nodata b
        extra het hex hey).2.1
    · exact (gtiffOpts_blocksize dt bands.length (bands.headD []).length
        ((bands.headD []).headD []).length crs resolution offset nodata b
        extra het hex hey).2.2

set_option maxRecDepth 40000 in
/-- C8 counterexample: the claim as stated fails when `extra_rio_opts`
itself carries a `blockxsize` key — `write_gtiff` applies the extra
options after the clamped tiling options, so `blocksize=512` on a
100×300 image with an extra `blockxsize=7` stores tile width 7, not
`min 512 300`. -/
theorem write_gtiff_blocksize_override_cex :
    ((write_gtiff [] "d.tif" ⟨Dtype.uint8, .two (mkFull 100 300 0)⟩
        ⟨some 3857, "WKT3857"⟩ (10, -10) (0, 0) none false (some 512)
        ⟨none, some 7, none, none, none, none⟩).2).lookup "d.tif"
      = some ⟨gtiffOpts Dtype.uint8 1 100 300 ⟨some 3857, "WKT3857"⟩
          (10, -10) (0, 0) none (some 512)
          ⟨none, some 7, none, none, none, none⟩, [mkFull 100 300 0]⟩
    ∧ (gtiffOpts Dtype.uint8 1 100 300 ⟨some 3857, "WKT3857"⟩ (10, -10)
        (0, 0) none (some 512)
        ⟨none, some 7, none, none, none, none⟩).blockxsize = some 7
    ∧ (7 : Nat) ≠ min 512 300 :=
  ⟨rfl, rfl, by decide⟩

set_option maxRecDepth 40000 in
/-- C8 witness: `blocksize=512` on a 100×300 2-D image (and on a 2×3
3-D image) with no conflicting extra options yields tile sizes clamped
to the image extent. -/
theorem write_gtiff_blocksize_clamped_witness :
    (∃ f, ((write_gtiff [] "t.tif" ⟨Dtype.uint8, .two (mkFull 100 300 0)⟩
          ⟨some 3857, "WKT3857"⟩ (10, -10) (0, 0) none false (some 512)
          ⟨none, none, none, none, none, none⟩).2).lookup "t.tif" = some f
        ∧ f.opts.tiled = some true
        ∧ f.opts.blockxsize = some (min 512 300)
        ∧ f.opts.blockysize = some (min 512 100))
    ∧ (∃ f, ((write_gtiff [] "t.tif" ⟨Dtype.uint8, .three [mkFull 2 3 0]⟩
          ⟨some 3857, "WKT3857"⟩ (10, -10) (0, 0) none false (some 512)
          ⟨none, none, none, none, none, none⟩).2).lookup "t.tif" = some f
        ∧ f.opts.tiled = some true
        ∧ f.opts.blockxsize = some (min 512 3)
        ∧ f.opts.blockysize = some (min 512 2)) :=
  write_gtiff_blocksize_clamped [] "t.tif" Dtype.uint8 (mkFull 100 300 0)
    [mkFull 2 3 0] ⟨some 3857, "WKT3857"⟩ (10, -10) (0, 0) none 512
    ⟨none, none, none, none, none, none⟩ (by rfl) (by rfl) (by rfl)
    (by rfl)

/-- C6: `rio_geobox` derives a geobox exactly when both the crs and the
transform keys are present (absence gives `None`, not an error), and the
derived geobox's CRS is the `epsg:<code>` string when the backend CRS
has a registered EPSG code, its WKT form otherwise. -/
theorem rio_geobox_contract (meta : RioMeta) :
    ((rio_geobox meta).isSome ↔ meta.crs.isSome ∧ meta.transform.isSome)
    ∧ (∀ g c, rio_geobox meta = some g → meta.crs = some c →
        g.crs.spec = match c.epsg with
                     | some code => "epsg:" ++ toString code
                     | none => c.wkt) := by
  constructor
  · cases hc : meta.crs <;> cases ht : meta.transform <;>
      simp [rio_geobox, hc, ht]
  · intro g c hg hc
    cases ht : meta.transform with
    | none => simp [rio_geobox, hc, ht] at hg
    | some t =>
        simp only [rio_geobox, hc, ht, Option.some.injEq] at hg
        subst hg
        cases he : c.epsg <;> simp [dc_crs_from_rio, he]

/-- C6 witness: a concrete metadata record with an EPSG-coded CRS and a
transform derives a geobox whose CRS is the `epsg:4326` string, and the
presence equivalence holds there. -/
theorem rio_geobox_contract_witness :
    ((rio_geobox ⟨3, 4, 1, Dtype.uint8, some ⟨some 4326, "WKT4326"⟩,
        some ⟨10, 0, 0, 0, -10, 0⟩, none⟩).isSome
      ↔ (some (⟨some 4326, "WKT4326"⟩ : RioCRS)).isSome
        ∧ (some (⟨10, 0, 0, 0, -10, 0⟩ : Affine)).isSome)
    ∧ (⟨4, 3, ⟨10, 0, 0, 0, -10, 0⟩, ⟨"epsg:4326"⟩⟩ : GeoBox).crs.spec
        = "epsg:4326" := by
  constructor
  · exact (rio_geobox_contract ⟨3, 4, 1, Dtype.uint8,
      some ⟨some 4326, "WKT4326"⟩, some ⟨10, 0, 0, 0, -10, 0⟩, none⟩).1
  · have h := (rio_geobox_contract ⟨3, 4, 1, Dtype.uint8,
      some ⟨some 4326, "WKT4326"⟩, some ⟨10, 0, 0, 0, -10, 0⟩, none⟩).2
      ⟨4, 3, ⟨10, 0, 0, 0, -10, 0⟩, ⟨"epsg:4326"⟩⟩
      ⟨some 4326, "WKT4326"⟩ rfl rfl
    exact h.trans rfl

/-- C9: `rio_slurp_read` returns a pair of array and metadata record; the
array is the single stored band as a 2-D array when the file has exactly
one band, and all stored bands stacked as a 3-D array otherwise, with the
file's dtype; the optional `out_shape` is forwarded to the backend read
(`srcReadBand`/`srcReadAll`), and with no `out_shape` a single-band file
returns exactly its stored band. -/
theorem rio_slurp_read_contract (fs : FS) (fname : String)
    (os : Option (Nat × Nat)) (src : RasterFile)
    (hsrc : fs.lookup fname = some src) :
    ∃ a m, rio_slurp_read fs fname os = .ok (a, m)
      ∧ a.dtype = src.dtype
      ∧ (src.count = 1 →
          a.pix = .two (srcReadBand src 1 os) ∧ a.pix.ndim = 2)
      ∧ (src.count ≠ 1 →
          a.pix = .three (srcReadAll src os) ∧ a.pix.ndim = 3)
      ∧ (os = none → src.count = 1 →
          a.pix = .two (src.bands.getD 0 [])) := by
  by_cases h1 : src.count = 1
  · refine ⟨⟨src.dtype, .two (srcReadBand src 1 os)⟩,
      ⟨srcMeta src, rio_geobox (srcMeta src), none, fname⟩,
      ?_, rfl, ?_, ?_, ?_⟩
    · simp [rio_slurp_read, hsrc, h1]
    · intro _; exact ⟨rfl, rfl⟩
    · intro h; exact absurd h1 h
    · intro hos _; subst hos; rfl
  · refine ⟨⟨src.dtype, .three (srcReadAll src os)⟩,
      ⟨srcMeta src, rio_geobox (srcMeta src), none, fname⟩,
      ?_, rfl, ?_, ?_, ?_⟩
    · simp [rio_slurp_read, hsrc, h1]
    · intro h; exact absurd h h1
    · intro _; exact ⟨rfl, rfl⟩
    · intro _ h; exact absurd h h1

/-- C9 witness: a concrete single-band 3×4 file slurped without
`out_shape` returns its stored band as a 2-D array with the file's
dtype. -/
theorem rio_slurp_read_contract_witness :
    ∃ a m, rio_slurp_read
        [("b.tif", ⟨⟨4, 3, 1, Dtype.uint8, some ⟨some 3857, "WKT3857"⟩,
            some ⟨10, 0, 0, 0, -10, 0⟩, 2, "DEFLATE", none, none, none,
            none⟩,
          [[[1, 1, 1, 1], [1, 1, 1, 1], [1, 1, 1, 1]]]⟩)] "b.tif" none
        = .ok (a, m)
      ∧ a.dtype = Dtype.uint8
      ∧ a.pix.ndim = 2
      ∧ a.pix = .two [[1, 1, 1, 1], [1, 1, 1, 1], [1, 1, 1, 1]] := by
  obtain ⟨a, m, hread, hdt, hone, -, hbare⟩ := rio_slurp_read_contract
    [("b.tif", ⟨⟨4, 3, 1, Dtype.uint8, some ⟨some 3857, "WKT3857"⟩,
        some ⟨10, 0, 0, 0, -10, 0⟩, 2, "DEFLATE", none, none, none,
        none⟩,
      [[[1, 1, 1, 1], [1, 1, 1, 1], [1, 1, 1, 1]]]⟩)] "b.tif" none
    ⟨⟨4, 3, 1, Dtype.uint8, some ⟨some 3857, "WKT3857"⟩,
        some ⟨10, 0, 0, 0, -10, 0⟩, 2, "DEFLATE", none, none, none,
        none⟩,
      [[[1, 1, 1, 1], [1, 1, 1, 1], [1, 1, 1, 1]]]⟩ (by rfl)
  exact ⟨a, m, hread, hdt, (hone rfl).2, hbare rfl rfl⟩

/-- C2 (amended): for a destination pixel the backend leaves untouched,
the fill value of `rio_slurp_reproject` is caller `dst_nodata`, else the
source file's nodata, else `0`; for `dc_read` the reader's
`fallback_nodata` slots in between the file's nodata and the `0`
default: caller `dst_nodata`, else file nodata, else `fallback_nodata`,
else `0`. -/
theorem nodata_resolution_order (fs : FS) (fname : String) (gbox : GeoBox)
    (dt : Option Dtype) (dnd : Option Val) (cov : Nat → Nat → Option Val)
    (src : RasterFile) (r c : Nat)
    (hsrc : fs.lookup fname = some src)
    (hr : r < gbox.height) (hc : c < gbox.width)
    (hcov : cov r c = none) :
    (∀ out, rio_slurp_reproject fs fname gbox dt dnd cov = .ok out →
        pixAt out.pix r c = (dnd <|> src.nodata).getD 0)
    ∧ (∀ img fb band rsmp dty,
        dc_read fs fname band (some gbox) rsmp dty dnd fb cov = .ok img →
        pixAt img.rows r c = (dnd <|> (src.nodata <|> fb)).getD 0) := by
  constructor
  · intro out hout
    simp only [rio_slurp_reproject, hsrc] at hout
    injection hout with h
    subst h
    change pixAt (applyReproject cov (mkFull gbox.height gbox.width _))
      r c = _
    rw [pixAt_applyReproject_mkFull cov gbox.height gbox.width r c _ hr hc
      hcov]
    cases dnd with
    | some v => rfl
    | none =>
        rcases hsn : src.nodata with _ | u <;> simp [hsn]
  · intro img fb band rsmp dty hread
    simp only [dc_read, hsrc] at hread
    injection hread with h
    subst h
    change pixAt (applyReproject cov (mkFull gbox.height gbox.width _))
      r c = _
    rw [pixAt_applyReproject_mkFull cov gbox.height gbox.width r c _ hr hc
      hcov]
    cases dnd with
    | some v => rfl
    | none =>
        rcases hsn : src.nodata with _ | u <;>
          cases fb <;> simp [rdr_nodata, hsn]

/-! Concrete fixtures for the reprojection witnesses and
counterexamples. -/

/-- A concrete EPSG-coded backend CRS. -/
def crsEx : RioCRS := ⟨some 3857, "WKT3857"⟩

/-- A concrete affine transform (10 m pixels, origin 0). -/
def affEx : Affine := ⟨10, 0, 0, 0, -10, 0⟩

/-- A concrete single-band 3×4 file with no declared nodata. -/
def fileB : RasterFile :=
  ⟨⟨4, 3, 1, Dtype.uint8, some crsEx, some affEx, 2, "DEFLATE", none,
    none, none, none⟩,
   [[[1, 1, 1, 1], [1, 1, 1, 1], [1, 1, 1, 1]]]⟩

/-- Same file but with declared nodata 255. -/
def fileW : RasterFile :=
  ⟨⟨4, 3, 1, Dtype.uint8, some crsEx, some affEx, 2, "DEFLATE", none,
    none, none, some 255⟩,
   [[[1, 1, 1, 1], [1, 1, 1, 1], [1, 1, 1, 1]]]⟩

/-- A 1×1 destination grid. -/
def gD : GeoBox := ⟨1, 1, affEx, ⟨"epsg:3857"⟩⟩

/-- A footprint covering no destination pixel at all. -/
def covEmpty : Nat → Nat → Option Val := fun _ _ => none

/-- C2 counterexample: the claim as stated fails for `dc_read` — with no
caller `dst_nodata`, a file declaring no nodata and
`fallback_nodata = 7`, the output is filled with 7, not with the
constant 0 the claim requires. -/
theorem dc_read_fallback_nodata_cex :
    dc_read [("b.tif", fileB)] "b.tif" 1 (some gD) "nearest" none none
      (some 7) covEmpty = .ok ⟨Dtype.uint8, [[7]]⟩
    ∧ (7 : Val) ≠ 0 :=
  ⟨rfl, by decide⟩

/-- The concrete output of reprojecting `fileW` onto the 1×1 grid with
an empty footprint: fully filled with the file's nodata 255. -/
def outW : ReprojOut :=
  ⟨[[255]], Dtype.uint8,
   ⟨srcMeta fileW, some gD, rio_geobox (srcMeta fileW), "w.tif"⟩⟩

/-- C2 witness: with no caller `dst_nodata`, `rio_slurp_reproject` of a
file declaring nodata 255 fills with 255, and `dc_read` of a file with
no declared nodata and `fallback_nodata = 7` fills with 7. -/
theorem nodata_resolution_order_witness :
    pixAt outW.pix 0 0 = 255
    ∧ pixAt [[7]] 0 0 = 7 := by
  constructor
  · have h := (nodata_resolution_order [("w.tif", fileW)] "w.tif" gD none
      none covEmpty fileW 0 0 rfl (by decide) (by decide) rfl).1 outW rfl
    exact h.trans rfl
  · have h := (nodata_resolution_order [("b.tif", fileB)] "b.tif" gD none
      none covEmpty fileB 0 0 rfl (by decide) (by decide) rfl).2
      ⟨Dtype.uint8, [[7]]⟩ (some 7) 1 "nearest" none rfl
    exact h.trans rfl

/-- C3: a reprojecting read (`rio_slurp_reproject` and `dc_read`) onto a
grid G returns an array of shape `G.shape`, and — because the canvas is
pre-filled with the resolved nodata before reprojection — every pixel the
backend's footprint does not cover equals the resolved nodata value. -/
theorem reproject_shape_and_prefill (fs : FS) (fname : String)
    (gbox : GeoBox) (dt : Option Dtype) (dnd : Option Val)
    (cov : Nat → Nat → Option Val) (src : RasterFile)
    (hsrc : fs.lookup fname = some src) :
    (∀ out, rio_slurp_reproject fs fname gbox dt dnd cov = .ok out →
        out.pix.length = gbox.shape.1
        ∧ (∀ row ∈ out.pix, row.length = gbox.shape.2)
        ∧ ∀ r c, r < gbox.height → c < gbox.width → cov r c = none →
            pixAt out.pix r c = (dnd <|> src.nodata).getD 0)
    ∧ (∀ img fb band rsmp dty,
        dc_read fs fname band (some gbox) rsmp dty dnd fb cov = .ok img →
        img.rows.length = gbox.shape.1
        ∧ (∀ row ∈ img.rows, row.length = gbox.shape.2)
        ∧ ∀ r c, r < gbox.height → c < gbox.width → cov r c = none →
            pixAt img.rows r c = (dnd <|> rdr_nodata src fb).getD 0) := by
  constructor
  · intro out hout
    simp only [rio_slurp_reproject, hsrc] at hout
    injection hout with h
    subst h
    refine ⟨?_, ?_, ?_⟩
    · exact applyReproject_mkFull_length cov gbox.height gbox.width _
    · exact applyReproject_mkFull_rowlen cov gbox.height gbox.width _
    · intro r c hr hc hcov
      change pixAt (applyReproject cov (mkFull gbox.height gbox.width _))
        r c = _
      rw [pixAt_applyReproject_mkFull cov gbox.height gbox.width r c _ hr
        hc hcov]
      cases dnd with
      | some v => rfl
      | none => rcases hsn : src.nodata with _ | u <;> simp [hsn]
  · intro img fb band rsmp dty hread
    simp only [dc_read, hsrc] at hread
    injection hread with h
    subst h
    refine ⟨?_, ?_, ?_⟩
    · exact applyReproject_mkFull_length cov gbox.height gbox.width _
    · exact applyReproject_mkFull_rowlen cov gbox.height gbox.width _
    · intro r c hr hc hcov
      change pixAt (applyReproject cov (mkFull gbox.height gbox.width _))
        r c = _
      rw [pixAt_applyReproject_mkFull cov gbox.height gbox.width r c _ hr
        hc hcov]
      cases dnd with
      | some v => rfl
      | none => rcases hrn : rdr_nodata src fb with _ | u <;> simp [hrn]

/-- A 3-wide 2-high destination grid. -/
def gPre : GeoBox := ⟨3, 2, affEx, ⟨"epsg:3857"⟩⟩

/-- A footprint covering only the destination pixel (0, 0). -/
def covOne : Nat → Nat → Option Val :=
  fun r c => if r == 0 && c == 0 then some 5 else none

/-- The concrete output of reprojecting `fileB` (no nodata declared)
onto the 2×3 grid with footprint `covOne`: the covered pixel holds 5 and
every other pixel holds the resolved nodata 0. -/
def outPre : ReprojOut :=
  ⟨[[5, 0, 0], [0, 0, 0]], Dtype.uint8,
   ⟨srcMeta fileB, some gPre, rio_geobox (srcMeta fileB), "b.tif"⟩⟩

/-- C3 witness: reprojecting onto the 2×3 grid returns 2 rows of width
3, and the pixels outside the footprint equal the resolved nodata 0. -/
theorem reproject_shape_and_prefill_witness :
    outPre.pix.length = gPre.shape.1
    ∧ pixAt outPre.pix 0 1 = 0
    ∧ pixAt outPre.pix 1 2 = 0 := by
  have h := (reproject_shape_and_prefill [("b.tif", fileB)] "b.tif" gPre
    none none covOne fileB rfl).1 outPre rfl
  exact ⟨h.1, (h.2.2 0 1 (by decide) (by decide) rfl).trans rfl,
    (h.2.2 1 2 (by decide) (by decide) rfl).trans rfl⟩

theorem writeGtiffCreate_fst (fs : FS) (fname : String) (dt : Dtype)
    (bands : List (List (List Val))) (h w : Nat) (crs : RioCRS)
    (resolution offset : Rat × Rat) (nodata : Option Val)
    (blocksize : Option Nat) (extra : ExtraOpts) :
    (writeGtiffCreate fs fname dt bands h w crs resolution offset nodata
        blocksize extra).1
      = .ok { meta := srcMeta ⟨gtiffOpts dt bands.length h w crs
                resolution offset nodata blocksize extra, bands⟩,
              gbox := rio_geobox (srcMeta ⟨gtiffOpts dt bands.length h w
                crs resolution offset nodata blocksize extra, bands⟩),
              srcGbox := none, path := fname } := rfl

theorem writeGtiffChecked_ok_gbox (fs : FS) (fname : String) (dt : Dtype)
    (bands : List (List (List Val))) (h w : Nat) (crs : RioCRS)
    (resolution offset : Rat × Rat) (nodata : Option Val)
    (overwrite : Bool) (blocksize : Option Nat) (extra : ExtraOpts)
    (m : OutMeta)
    (hm : (writeGtiffChecked fs fname dt bands h w crs resolution offset
        nodata overwrite blocksize extra).1 = .ok m) :
    m.gbox = rio_geobox m.meta := by
  unfold writeGtiffChecked at hm
  by_cases hex : (fs.lookup fname).isSome
  · rw [if_pos hex] at hm
    cases overwrite with
    | false => simp at hm
    | true =>
        rw [if_pos rfl] at hm
        rw [writeGtiffCreate_fst] at hm
        injection hm with h2
        subst h2
        rfl
  · rw [if_neg hex] at hm
    rw [writeGtiffCreate_fst] at hm
    injection hm with h2
    subst h2
    rfl

/-- C7 (amended): the metadata records of `rio_slurp_read` and
`write_gtiff` carry a `gbox` that, when non-null, is derived from that
same record's height/width/transform/crs; for `rio_slurp_reproject` it
is `src_gbox` that is so derived, while `gbox` is the caller-supplied
destination grid (generally inconsistent with the record's own source
fields). -/
theorem produced_gbox_consistency (fs : FS) (fname : String)
    (os : Option (Nat × Nat)) (gbox : GeoBox) (dt : Option Dtype)
    (dnd : Option Val) (cov : Nat → Nat → Option Val) (pix : Ndarray)
    (crs : RioCRS) (resolution offset : Rat × Rat) (nodata : Option Val)
    (overwrite : Bool) (blocksize : Option Nat) (extra : ExtraOpts) :
    (∀ a m, rio_slurp_read fs fname os = .ok (a, m) →
        ∀ g, m.gbox = some g → gboxConsistent m.meta g)
    ∧ (∀ m, (write_gtiff fs fname pix crs resolution offset nodata
          overwrite blocksize extra).1 = .ok m →
        ∀ g, m.gbox = some g → gboxConsistent m.meta g)
    ∧ (∀ out, rio_slurp_reproject fs fname gbox dt dnd cov = .ok out →
        out.meta.gbox = some gbox
        ∧ ∀ g, out.meta.srcGbox = some g →
            gboxConsistent out.meta.meta g) := by
  refine ⟨?_, ?_, ?_⟩
  · intro a m hread g hg
    cases hsrc : fs.lookup fname with
    | none => simp [rio_slurp_read, hsrc] at hread
    | some src =>
        simp only [rio_slurp_read, hsrc] at hread
        injection hread with h2
        rw [Prod.mk.injEq] at h2
        obtain ⟨-, h3⟩ := h2
        subst h3
        exact hg
  · intro m hw g hg
    obtain ⟨dt2, p⟩ := pix
    cases p with
    | two rows =>
        have := writeGtiffChecked_ok_gbox fs fname dt2 [rows] rows.length
          (rows.headD []).length crs resolution offset nodata overwrite
          blocksize extra m hw
        rw [this] at hg
        exact hg
    | three bands =>
        have := writeGtiffChecked_ok_gbox fs fname dt2 bands
          (bands.headD []).length ((bands.headD []).headD []).length crs
          resolution offset nodata overwrite blocksize extra m hw
        rw [this] at hg
        exact hg
    | other n hn => simp [write_gtiff] at hw
  · intro out hout
    cases hsrc : fs.lookup fname with
    | none => simp [rio_slurp_reproject, hsrc] at hout
    | some src =>
        simp only [rio_slurp_reproject, hsrc] at hout
        injection hout with h2
        subst h2
        exact ⟨rfl, fun g hg => hg⟩

/-- The concrete output of reprojecting `fileB` onto the 1×1 grid `gD`
with an empty footprint. -/
def outB7 : ReprojOut :=
  ⟨[[0]], Dtype.uint8,
   ⟨srcMeta fileB, some gD, rio_geobox (srcMeta fileB), "b.tif"⟩⟩

/-- C7 counterexample: the record produced by `rio_slurp_reproject`
carries the caller's destination grid as `gbox` (here 1×1) while its own
height/width/transform fields are the source file's (3×4) — so the
non-null `gbox` is not derived from that same record's fields. -/
theorem reproject_gbox_inconsistent_cex :
    rio_slurp_reproject [("b.tif", fileB)] "b.tif" gD none none covEmpty
      = .ok outB7
    ∧ outB7.meta.gbox = some gD
    ∧ outB7.meta.meta.width = 4
    ∧ gD.width = 1
    ∧ ¬ gboxConsistent outB7.meta.meta gD :=
  ⟨rfl, rfl, rfl, rfl, by decide⟩

/-- The source-side geobox of `fileB` as derived by `rio_geobox`. -/
def gSrcB : GeoBox := ⟨4, 3, affEx, ⟨"epsg:3857"⟩⟩

/-- C7 witness: on a concrete file, the plain read's record has a `gbox`
consistent with its own fields, and the reprojecting read's record
carries the destination grid as `gbox`. -/
theorem produced_gbox_consistency_witness :
    gboxConsistent (srcMeta fileB) gSrcB
    ∧ outB7.meta.gbox = some gD := by
  have h := produced_gbox_consistency [("b.tif", fileB)] "b.tif" none gD
    none none covEmpty ⟨Dtype.uint8, .two [[1]]⟩ crsEx (10, -10) (0, 0)
    none false none ⟨none, none, none, none, none, none⟩
  constructor
  · exact h.1 ⟨Dtype.uint8, .two [[1, 1, 1, 1], [1, 1, 1, 1], [1, 1, 1, 1]]⟩
      ⟨srcMeta fileB, rio_geobox (srcMeta fileB), none, "b.tif"⟩ rfl
      gSrcB rfl
  · exact (h.2.2 outB7 rfl).1

end Dcube
